import Mathlib

/-!
Verification of the agent deployment and lifecycle orchestration engine
(`DeploymentManager` and the surrounding lifecycle API endpoints).

The JavaScript source is shallowly embedded: effectful stages (filesystem
writes, `docker build`, `docker-compose up/down`, health probes, diagnostic
log fetches) are driven by an explicit environment oracle describing the
outcome of each external operation, and every operation additionally
returns the trace of external events it issued, so that ordering and
side-effect claims can be stated and proved.
-/

namespace SuperiorAgents

/-! ## JavaScript `parseInt(s, 16)` and the port derivation

The deployment manager derives the published port as
`3100 + parseInt(agentId.slice(-3), 16) % 900` in two places
(`generateDockerCompose` line 34 and `deployAgent` line 172).
`parseInt` trims nothing of interest here (ids have no leading blanks at
the sliced suffix), accepts an optional sign, skips an optional `0x`/`0X`
prefix, then reads the longest hex-digit prefix; it yields NaN when no
digit is read.  NaN is modelled as `none`.  JavaScript `%` is the
truncated remainder (sign of the dividend), i.e. `Int.tmod`. -/

def hexVal (c : Char) : Option Nat :=
  if '0' ≤ c ∧ c ≤ '9' then some (c.toNat - '0'.toNat)
  else if 'a' ≤ c ∧ c ≤ 'f' then some (c.toNat - 'a'.toNat + 10)
  else if 'A' ≤ c ∧ c ≤ 'F' then some (c.toNat - 'A'.toNat + 10)
  else none

def isHexDigit (c : Char) : Bool := (hexVal c).isSome

/-- Accumulate consecutive leading hex digits onto `acc`, stopping at the
first non-digit. -/
def hexAccum (acc : Nat) : List Char → Nat
  | [] => acc
  | c :: cs =>
    match hexVal c with
    | none => acc
    | some d => hexAccum (acc * 16 + d) cs

/-- The longest hex-digit prefix of a character list, as a number;
`none` when the very first character is not a hex digit (NaN). -/
def hexPrefixVal : List Char → Option Nat
  | [] => none
  | c :: cs =>
    match hexVal c with
    | none => none
    | some d => some (hexAccum d cs)

/-- JavaScript `parseInt(s, 16)`: optional sign, optional `0x` prefix, longest
hex-digit run; `none` models NaN. -/
def parseIntHex (s : String) : Option Int :=
  let cs := s.toList
  let (sign, rest) :=
    match cs with
    | '-' :: r => ((-1 : Int), r)
    | '+' :: r => ((1 : Int), r)
    | r => ((1 : Int), r)
  let rest :=
    match rest with
    | '0' :: 'x' :: r => r
    | '0' :: 'X' :: r => r
    | r => r
  match hexPrefixVal rest with
  | none => none
  | some v => some (sign * (v : Int))

/-- JavaScript `s.slice(-3)`: the last three characters (the whole string
when it is shorter). -/
def sliceLast3 (s : String) : String :=
  String.mk (s.toList.drop (s.toList.length - 3))

/-- Port expression as written in `generateDockerCompose` (line 34):
`3100 + parseInt(agentId.slice(-3), 16) % 900`; `none` models NaN. -/
def generateComposePort (agentId : String) : Option Int :=
  match parseIntHex (sliceLast3 agentId) with
  | none => none
  | some v => some (3100 + Int.tmod v 900)

/-- Port expression as written in `deployAgent` (line 172):
`3100 + parseInt(agentId.slice(-3), 16) % 900`; `none` models NaN. -/
def deployAgentPort (agentId : String) : Option Int :=
  match parseIntHex (sliceLast3 agentId) with
  | none => none
  | some v => some (3100 + Int.tmod v 900)

/-! ## Data model: registry entries and results

`runningAgents` is the in-memory registry, a map `agentId → entry`,
modelled as an association list with `Map.set`/`Map.delete` semantics. -/

/-- Value stored in `runningAgents` by `deployAgent` (lines 179–184). -/
structure RegEntry where
  url : String
  composePath : String
  status : String
  deployedAt : String
  deriving DecidableEq, Repr

abbrev Registry := List (String × RegEntry)

def lookupReg (reg : Registry) (id : String) : Option RegEntry :=
  (reg.find? (fun p => p.1 = id)).map (·.2)

def eraseReg (reg : Registry) (id : String) : Registry :=
  reg.filter (fun p => ¬ p.1 = id)

def insertReg (reg : Registry) (id : String) (e : RegEntry) : Registry :=
  (id, e) :: eraseReg reg id

/-- Result object returned by `deployAgent` / `stopAgent`: an explicit
success flag plus the optional fields each return site populates. -/
structure OpResult where
  success : Bool
  agentId : Option String
  url : Option String
  status : Option String
  error : Option String
  deriving DecidableEq, Repr

/-- Outcome of one effectful stage (an awaited external command):
either it resolves, or it rejects with an error message. -/
inductive StageResult where
  | ok : StageResult
  | err (msg : String) : StageResult
  deriving DecidableEq, Repr

/-- Outcome of one health-probe attempt: `success` is a response with
`response.ok`; `failStatus` a response with a non-success status;
`error` a thrown fetch failure (timeout / connection error). -/
inductive ProbeOutcome where
  | success : ProbeOutcome
  | failStatus (code : Nat) : ProbeOutcome
  | error (msg : String) : ProbeOutcome
  deriving DecidableEq, Repr

/-- Externally visible events issued by the deployment manager, recorded
in order. -/
inductive Event where
  | saveConfig (id : String)
  | saveCompose (path : String)
  | buildImage
  | composeUp (path : String)
  | probe (attempt : Nat)
  | logPull (containerName : String) (fetchOk : Bool)
  | composeDown (path : String)
  deriving DecidableEq, Repr

/-! ## `stopAgent` (part_000 lines 263–289) -/

/-- Environment for `stopAgent`: whether `fs.access(composePath)`
resolves, and the outcome of `docker-compose -f <path> down`. -/
structure StopEnv where
  fileAccess : Bool
  down : StageResult
  deriving DecidableEq, Repr

/-- Model of `stopAgent(agentId)`: look the agent up; absent → `{success:false,
error:'Agent not found'}` with no side effect.  Present → when the
compose path is truthy and accessible, run tear-down; a tear-down
rejection is caught and returned as `{success:false, agentId, error}`
without touching the registry; otherwise the entry is deleted and
`{success:true, agentId}` returned. -/
def stopAgent (se : StopEnv) (reg : Registry) (agentId : String) :
    OpResult × Registry × List Event :=
  match lookupReg reg agentId with
  | none =>
    ({ success := false, agentId := none, url := none, status := none,
       error := some "Agent not found" }, reg, [])
  | some agent =>
    if agent.composePath ≠ "" ∧ se.fileAccess then
      match se.down with
      | .ok =>
        ({ success := true, agentId := some agentId, url := none,
           status := none, error := none },
         eraseReg reg agentId, [.composeDown agent.composePath])
      | .err m =>
        ({ success := false, agentId := some agentId, url := none,
           status := none, error := some m },
         reg, [.composeDown agent.composePath])
    else
      ({ success := true, agentId := some agentId, url := none,
         status := none, error := none },
       eraseReg reg agentId, [])

/-! ## `waitForHealth` (part_000 lines 214–258) -/

/-- Line 244 guard, `url.includes("3100")`. -/
def urlContains3100 (url : String) : Bool :=
  (url.splitOn "3100").length > 1

/-- Line 244: `url.includes('3100') ? url.split(':')[2] : 'unknown'`
(an out-of-range index yields `undefined`, which interpolates as the
string `"undefined"`). -/
def logContainerSuffix (url : String) : String :=
  if urlContains3100 url then (url.splitOn ":").getD 2 "undefined"
  else "unknown"

/-- The name the diagnostic pull addresses:
`superior-agent-${containerName}` (line 245). -/
def logPullName (url : String) : String :=
  "superior-agent-" ++ logContainerSuffix url

/-- One pass of the health loop, `remaining` attempts left, current
attempt number `attempt`.  On `response.ok` return `true` at once; on a
non-success status fall through to the sleep; on a thrown fetch error,
every 5th attempt additionally pulls a bounded log tail (its own failure
caught and ignored), then fall through to the sleep.  Returns the final
boolean and the events issued. -/
def healthLoop (url : String) (probe : Nat → ProbeOutcome)
    (logFetch : Nat → Bool) (attempt : Nat) :
    (remaining : Nat) → Bool × List Event
  | 0 => (false, [])
  | remaining + 1 =>
    match probe attempt with
    | .success => (true, [.probe attempt])
    | .failStatus _ =>
      let rest := healthLoop url probe logFetch (attempt + 1) remaining
      (rest.1, .probe attempt :: rest.2)
    | .error _ =>
      let pulls : List Event :=
        if attempt % 5 = 0 then [.logPull (logPullName url) (logFetch attempt)]
        else []
      let rest := healthLoop url probe logFetch (attempt + 1) remaining
      (rest.1, .probe attempt :: (pulls ++ rest.2))

/-- Model of `waitForHealth(url, timeoutSeconds)`:
`maxAttempts = ⌊timeoutSeconds·1000 / 2000⌋`, attempts numbered from 1. -/
def waitForHealth (url : String) (probe : Nat → ProbeOutcome)
    (logFetch : Nat → Bool) (timeoutSeconds : Nat) : Bool × List Event :=
  healthLoop url probe logFetch 1 (timeoutSeconds * 1000 / 2000)

/-! ## `deployAgent` (part_000 lines 139–209) -/

/-- Environment for one `deployAgent` call: outcomes of the config
write, the compose write, `docker build`, `docker-compose up -d`, the
probe of each health attempt, the diagnostic log fetch of each attempt,
the cleanup's `stopAgent` environment, and the timestamp taken at
registration. -/
structure DeployEnv where
  saveConfig : StageResult
  saveCompose : StageResult
  build : StageResult
  up : StageResult
  probe : Nat → ProbeOutcome
  logFetch : Nat → Bool
  stopEnv : StopEnv
  nowIso : String

/-- Path `path.join(composeDir, agentId + "-compose.yml")` with
`composeDir = path.join(__dirname, '../deployments')` (lines 93–96). -/
def composePathOf (agentId : String) : String :=
  "../deployments/" ++ agentId ++ "-compose.yml"

/-- Url `http://localhost:<port>` (line 173); a NaN port interpolates as
the string `"NaN"`. -/
def urlOfPort : Option Int → String
  | none => "http://localhost:NaN"
  | some p => "http://localhost:" ++ toString p

/-- The catch block of `deployAgent` (lines 197–208): run `stopAgent`
for cleanup — its result is discarded, and it never throws — then
return `{success:false, agentId, error: originalMessage}`. -/
def deployCatch (se : StopEnv) (reg : Registry) (agentId msg : String)
    (tr : List Event) : OpResult × Registry × List Event :=
  let cleanup := stopAgent se reg agentId
  ({ success := false, agentId := some agentId, url := none,
     status := none, error := some msg },
   cleanup.2.1, tr ++ cleanup.2.2)

/-- Model of `deployAgent(agentId, config)`: save config, generate and save the
compose descriptor, build the runtime image, `docker-compose up -d`,
then poll health for 60 seconds.  Healthy → registry entry recorded and
success returned; any rejection or a failed health check →
the catch block (cleanup, then `{success:false, error}`). -/
def deployAgent (env : DeployEnv) (reg : Registry) (agentId : String) :
    OpResult × Registry × List Event :=
  let tr0 : List Event := [.saveConfig agentId]
  match env.saveConfig with
  | .err m => deployCatch env.stopEnv reg agentId m tr0
  | .ok =>
    let composePath := composePathOf agentId
    let tr1 := tr0 ++ [.saveCompose composePath]
    match env.saveCompose with
    | .err m => deployCatch env.stopEnv reg agentId m tr1
    | .ok =>
      let tr2 := tr1 ++ [.buildImage]
      match env.build with
      | .err m => deployCatch env.stopEnv reg agentId m tr2
      | .ok =>
        let tr3 := tr2 ++ [.composeUp composePath]
        match env.up with
        | .err m => deployCatch env.stopEnv reg agentId m tr3
        | .ok =>
          let agentUrl := urlOfPort (deployAgentPort agentId)
          let health := waitForHealth agentUrl env.probe env.logFetch 60
          let tr4 := tr3 ++ health.2
          if health.1 then
            ({ success := true, agentId := some agentId,
               url := some agentUrl, status := some "running",
               error := none },
             insertReg reg agentId
               { url := agentUrl, composePath := composePath,
                 status := "running", deployedAt := env.nowIso },
             tr4)
          else
            deployCatch env.stopEnv reg agentId "Agent failed health check" tr4

/-! ## Lifecycle API endpoints (part_002)

The server keeps its own `agents` map of configuration records; the
stop and pause endpoints (lines 946–982 and 1031–1067) both delegate
tear-down to `deploymentManager.stopAgent` and then update the record. -/

/-- The fields of an `agents` record the stop/pause endpoints touch. -/
structure AgentRec where
  status : String
  containerUrl : Option String
  stoppedAt : Option String
  pausedAt : Option String
  updatedAt : Option String
  deriving DecidableEq, Repr

abbrev AgentsMap := List (String × AgentRec)

def lookupA (m : AgentsMap) (id : String) : Option AgentRec :=
  (m.find? (fun p => p.1 = id)).map (·.2)

def setA (m : AgentsMap) (id : String) (a : AgentRec) : AgentsMap :=
  (id, a) :: m.filter (fun p => ¬ p.1 = id)

/-- HTTP response of the stop/pause endpoints, reduced to the status
code and the error detail it carries. -/
structure EndpointResp where
  code : Nat
  detail : Option String
  deriving DecidableEq, Repr

/-- Endpoint `POST /api/agents/:id/stop` (lines 946–982): 404 when unknown to the
server; else tear down via `stopAgent`; on success set status
`'stopped'`, stamp `stoppedAt`/`updatedAt`, `delete agent.containerUrl`;
on tear-down failure answer 500 and leave the record alone. -/
def stopEndpoint (se : StopEnv) (reg : Registry) (agents : AgentsMap)
    (id now : String) : EndpointResp × Registry × AgentsMap × List Event :=
  match lookupA agents id with
  | none => ({ code := 404, detail := some "Agent not found" }, reg, agents, [])
  | some agent =>
    let res := stopAgent se reg id
    if res.1.success then
      let agent' := { agent with
        status := "stopped", stoppedAt := some now,
        updatedAt := some now, containerUrl := none }
      ({ code := 200, detail := none }, res.2.1, setA agents id agent', res.2.2)
    else
      ({ code := 500, detail := res.1.error }, res.2.1, agents, res.2.2)

/-- Endpoint `POST /api/agents/:id/pause` (lines 1031–1067): same shape as stop,
with status `'paused'`, stamp `pausedAt`/`updatedAt`, and likewise
`delete agent.containerUrl`. -/
def pauseEndpoint (se : StopEnv) (reg : Registry) (agents : AgentsMap)
    (id now : String) : EndpointResp × Registry × AgentsMap × List Event :=
  match lookupA agents id with
  | none => ({ code := 404, detail := some "Agent not found" }, reg, agents, [])
  | some agent =>
    let res := stopAgent se reg id
    if res.1.success then
      let agent' := { agent with
        status := "paused", pausedAt := some now,
        updatedAt := some now, containerUrl := none }
      ({ code := 200, detail := none }, res.2.1, setA agents id agent', res.2.2)
    else
      ({ code := 500, detail := res.1.error }, res.2.1, agents, res.2.2)

/-! ## Follow-mode log streaming (part_002 lines 1145–1203)

The follow branch spawns `docker logs -f --tail 0 <container>` and wires
four handlers: subprocess stdout/stderr chunks are forwarded as events,
subprocess close ends the response, and the request's `close` event
kills the subprocess.  The wiring is modelled as a step function over
the stream of occurrences. -/

inductive StreamEvent where
  | stdoutData (chunk : String)
  | stderrData (chunk : String)
  | procClose
  | reqClose
  deriving DecidableEq, Repr

/-- State of one follow connection: whether the spawned subprocess is
still running and whether the response has been ended. -/
structure FollowState where
  procAlive : Bool
  resEnded : Bool
  deriving DecidableEq, Repr

def followInit : FollowState := { procAlive := true, resEnded := false }

/-- The registered handlers: data events only write to the response;
`close` of the subprocess writes a final info event and ends the
response; `close` of the request calls `followProcess.kill()`. -/
def followStep (st : FollowState) : StreamEvent → FollowState
  | .stdoutData _ => st
  | .stderrData _ => st
  | .procClose => { st with resEnded := true }
  | .reqClose => { st with procAlive := false }

def runFollow (st : FollowState) : List StreamEvent → FollowState
  | [] => st
  | e :: es => runFollow (followStep st e) es

/-! ## Trace observations -/

def isProbeEv : Event → Bool
  | .probe _ => true
  | _ => false

def isLogPullEv : Event → Bool
  | .logPull _ _ => true
  | _ => false

def isErrorOutcome : ProbeOutcome → Bool
  | .error _ => true
  | _ => false

/-- Number of probe attempts recorded in a trace. -/
def numProbes (tr : List Event) : Nat := (tr.filter isProbeEv).length

/-! ## Concrete scenario instances -/

/-- Probe schedule of the C2 scenario: attempt 1 fails with a
non-success status, attempt 2 succeeds. -/
def probeW : Nat → ProbeOutcome := fun i =>
  if i = 2 then .success else .failStatus 500

def entryC10 : RegEntry :=
  { url := "http://localhost:3100", composePath := "p",
    status := "running", deployedAt := "t" }

def regC10 : Registry := [("a1", entryC10)]

def seC10 : StopEnv := { fileAccess := true, down := .err "compose down failed" }

/-- The message of the first failing stage of the deploy pipeline,
matching the order the stages are awaited in `deployAgent`; `none` when
the whole pipeline succeeds. -/
def deployFirstError (env : DeployEnv) (id : String) : Option String :=
  match env.saveConfig with
  | .err m => some m
  | .ok =>
    match env.saveCompose with
    | .err m => some m
    | .ok =>
      match env.build with
      | .err m => some m
      | .ok =>
        match env.up with
        | .err m => some m
        | .ok =>
          if (waitForHealth (urlOfPort (deployAgentPort id)) env.probe
              env.logFetch 60).1
          then none
          else some "Agent failed health check"

/-- Environment of the C1 scenarios: the image build rejects with
`"boom"` and the cleanup tear-down itself rejects too. -/
def envC1 : DeployEnv :=
  { saveConfig := .ok, saveCompose := .ok, build := .err "boom", up := .ok,
    probe := fun _ => .error "unreachable", logFetch := fun _ => false,
    stopEnv := { fileAccess := true, down := .err "down failed" },
    nowIso := "t1" }

def entryC1 : RegEntry :=
  { url := "http://localhost:3100", composePath := "p",
    status := "running", deployedAt := "t0" }

def regC1 : Registry := [("a1", entryC1)]

def isStageEv : Event → Bool
  | .saveConfig _ => true
  | .saveCompose _ => true
  | .buildImage => true
  | .composeUp _ => true
  | _ => false

/-- The pipeline-stage events of a trace, in order. -/
def stageEvents (tr : List Event) : List Event := tr.filter isStageEv

def isBuildEv : Event → Bool
  | .buildImage => true
  | _ => false

def isSaveComposeEv : Event → Bool
  | .saveCompose _ => true
  | _ => false

def firstIdx (p : Event → Bool) : List Event → Option Nat
  | [] => none
  | e :: es => if p e then some 0 else (firstIdx p es).map (· + 1)

/-- Predicate `beforeIn p q tr`: both kinds of event occur in `tr` and the first
`p`-event strictly precedes the first `q`-event. -/
def beforeIn (p q : Event → Bool) (tr : List Event) : Bool :=
  match firstIdx p tr, firstIdx q tr with
  | some i, some j => decide (i < j)
  | _, _ => false

/-- Fully successful environment of the C4 scenario: every stage
resolves and the first probe succeeds. -/
def envC4 : DeployEnv :=
  { saveConfig := .ok, saveCompose := .ok, build := .ok, up := .ok,
    probe := fun _ => .success, logFetch := fun _ => true,
    stopEnv := { fileAccess := true, down := .ok }, nowIso := "t" }

def recC6 : AgentRec :=
  { status := "running", containerUrl := some "http://localhost:3100",
    stoppedAt := none, pausedAt := none, updatedAt := none }

def agentsC6 : AgentsMap := [("a1", recC6)]

def entryC6 : RegEntry :=
  { url := "http://localhost:3100", composePath := "p",
    status := "running", deployedAt := "t" }

def regC6 : Registry := [("a1", entryC6)]

def seC6 : StopEnv := { fileAccess := true, down := .ok }

/-- Invariant of `runningAgents`: every entry has status `"running"`
and carries a nonempty url and compose path. -/
def GoodReg (reg : Registry) : Prop :=
  ∀ p ∈ reg, (p : String × RegEntry).2.status = "running" ∧
    p.2.url ≠ "" ∧ p.2.composePath ≠ ""

/-- A lifecycle operation against the deployment manager. -/
inductive LifeOp where
  | deploy (env : DeployEnv) (id : String)
  | stop (se : StopEnv) (id : String)

def applyOp (reg : Registry) : LifeOp → Registry
  | .deploy env id => (deployAgent env reg id).2.1
  | .stop se id => (stopAgent se reg id).2.1

/-- Registry reached by running a sequence of lifecycle operations from
the initial empty registry. -/
def reachReg (ops : List LifeOp) : Registry := ops.foldl applyOp []

def entryC9 : RegEntry :=
  { url := "http://localhost:3105", composePath := "q",
    status := "running", deployedAt := "t" }

def regC9 : Registry := [("b2", entryC9)]

def seC9 : StopEnv := { fileAccess := true, down := .ok }

theorem numProbes_append (xs ys : List Event) :
    numProbes (xs ++ ys) = numProbes xs + numProbes ys := by
  simp [numProbes, List.filter_append]

theorem healthLoop_true_iff (url : String) (probe : Nat → ProbeOutcome)
    (lf : Nat → Bool) :
    ∀ r a, (healthLoop url probe lf a r).1 = true ↔
      ∃ i, a ≤ i ∧ i < a + r ∧ probe i = .success := by
  intro r
  induction r with
  | zero =>
    intro a
    simp only [healthLoop]
    constructor
    · intro h; cases h
    · rintro ⟨i, h1, h2, _⟩; omega
  | succ r ih =>
    intro a
    cases h : probe a with
    | success =>
      simp only [healthLoop, h]
      exact ⟨fun _ => ⟨a, le_refl a, by omega, h⟩, fun _ => trivial⟩
    | failStatus c =>
      simp only [healthLoop, h]
      rw [ih (a + 1)]
      constructor
      · rintro ⟨i, h1, h2, h3⟩; exact ⟨i, by omega, by omega, h3⟩
      · rintro ⟨i, h1, h2, h3⟩
        refine ⟨i, ?_, by omega, h3⟩
        rcases Nat.eq_or_lt_of_le h1 with heq | hlt
        · rw [← heq] at h3; rw [h3] at h; cases h
        · omega
    | error m =>
      simp only [healthLoop, h]
      rw [ih (a + 1)]
      constructor
      · rintro ⟨i, h1, h2, h3⟩; exact ⟨i, by omega, by omega, h3⟩
      · rintro ⟨i, h1, h2, h3⟩
        refine ⟨i, ?_, by omega, h3⟩
        rcases Nat.eq_or_lt_of_le h1 with heq | hlt
        · rw [← heq] at h3; rw [h3] at h; cases h
        · omega

theorem healthLoop_numProbes_le (url : String) (probe : Nat → ProbeOutcome)
    (lf : Nat → Bool) :
    ∀ r a, numProbes (healthLoop url probe lf a r).2 ≤ r := by
  intro r
  induction r with
  | zero => intro a; simp [healthLoop, numProbes]
  | succ r ih =>
    intro a
    cases h : probe a with
    | success => simp [healthLoop, h, numProbes, isProbeEv]
    | failStatus c =>
      simp only [healthLoop, h]
      simpa [numProbes, isProbeEv] using ih (a + 1)
    | error m =>
      simp only [healthLoop, h]
      by_cases h5 : a % 5 = 0 <;>
        simpa [numProbes, isProbeEv, h5, List.filter_append, isLogPullEv]
          using ih (a + 1)

theorem healthLoop_false_numProbes (url : String) (probe : Nat → ProbeOutcome)
    (lf : Nat → Bool) :
    ∀ r a, (healthLoop url probe lf a r).1 = false →
      numProbes (healthLoop url probe lf a r).2 = r := by
  intro r
  induction r with
  | zero => intro a _; simp [healthLoop, numProbes]
  | succ r ih =>
    intro a hf
    cases h : probe a with
    | success => rw [healthLoop, h] at hf; cases hf
    | failStatus c =>
      rw [healthLoop, h] at hf ⊢
      simp only [numProbes, List.filter, isProbeEv] at *
      have := ih (a + 1) hf
      simp only [numProbes] at this
      simp [this]
    | error m =>
      rw [healthLoop, h] at hf ⊢
      have := ih (a + 1) hf
      by_cases h5 : a % 5 = 0 <;>
        simp_all [numProbes, isProbeEv, h5, List.filter_append, isLogPullEv]

theorem healthLoop_first_success (url : String) (probe : Nat → ProbeOutcome)
    (lf : Nat → Bool) :
    ∀ r a k, a ≤ k → k < a + r → probe k = .success →
      (∀ j, a ≤ j → j < k → probe j ≠ .success) →
      numProbes (healthLoop url probe lf a r).2 = k + 1 - a := by
  intro r
  induction r with
  | zero => intro a k h1 h2 _ _; omega
  | succ r ih =>
    intro a k h1 h2 hk hmin
    cases h : probe a with
    | success =>
      have hak : k = a := by
        by_contra hne
        exact hmin a (le_refl a) (by omega) h
      subst hak
      simp [healthLoop, h, numProbes, isProbeEv]
    | failStatus c =>
      have hka : a < k := by
        rcases Nat.eq_or_lt_of_le h1 with heq | hlt
        · rw [heq] at h; rw [hk] at h; cases h
        · exact hlt
      have := ih (a + 1) k (by omega) (by omega) hk
        (fun j hj1 hj2 => hmin j (by omega) hj2)
      rw [healthLoop, h]
      simp only [numProbes, isProbeEv, List.filter] at this ⊢
      simp [this]
      omega
    | error m =>
      have hka : a < k := by
        rcases Nat.eq_or_lt_of_le h1 with heq | hlt
        · rw [heq] at h; rw [hk] at h; cases h
        · exact hlt
      have := ih (a + 1) k (by omega) (by omega) hk
        (fun j hj1 hj2 => hmin j (by omega) hj2)
      rw [healthLoop, h]
      by_cases h5 : a % 5 = 0 <;>
        · simp_all [numProbes, isProbeEv, h5, List.filter_append, isLogPullEv]
          omega

/-- The final verdict and the number of attempts made are unaffected by
the outcomes of the diagnostic log fetches. -/
theorem healthLoop_indep_logFetch (url : String) (probe : Nat → ProbeOutcome) :
    ∀ r a (lf₁ lf₂ : Nat → Bool),
      (healthLoop url probe lf₁ a r).1 = (healthLoop url probe lf₂ a r).1 ∧
      numProbes (healthLoop url probe lf₁ a r).2 =
        numProbes (healthLoop url probe lf₂ a r).2 := by
  intro r
  induction r with
  | zero => intro a lf₁ lf₂; exact ⟨rfl, rfl⟩
  | succ r ih =>
    intro a lf₁ lf₂
    cases h : probe a with
    | success => simp [healthLoop, h]
    | failStatus c =>
      have := ih (a + 1) lf₁ lf₂
      simp only [healthLoop, h]
      exact ⟨this.1, by
        simp only [numProbes, isProbeEv, List.filter] at this ⊢
        simp [this.2]⟩
    | error m =>
      have := ih (a + 1) lf₁ lf₂
      simp only [healthLoop, h]
      refine ⟨this.1, ?_⟩
      by_cases h5 : a % 5 = 0 <;>
        simp_all [numProbes, isProbeEv, h5, List.filter_append, isLogPullEv]

/-- The diagnostic pulls recorded by the health loop: exactly one per
executed attempt whose number is divisible by 5 and whose probe threw,
each addressed to `logPullName url` and carrying its fetch outcome. -/
theorem healthLoop_pulls (url : String) (probe : Nat → ProbeOutcome)
    (lf : Nat → Bool) :
    ∀ r a, (healthLoop url probe lf a r).2.filter isLogPullEv =
      ((List.range' a (numProbes (healthLoop url probe lf a r).2)).filter
        (fun i => i % 5 == 0 && isErrorOutcome (probe i))).map
          (fun i => Event.logPull (logPullName url) (lf i)) := by
  intro r
  induction r with
  | zero => intro a; simp [healthLoop, numProbes]
  | succ r ih =>
    intro a
    cases h : probe a with
    | success =>
      simp [healthLoop, h, numProbes, isProbeEv, isLogPullEv, List.range',
        isErrorOutcome]
    | failStatus c =>
      have hnum : numProbes (healthLoop url probe lf a (r+1)).2 =
          numProbes (healthLoop url probe lf (a+1) r).2 + 1 := by
        simp [healthLoop, h, numProbes, isProbeEv, List.filter]
      rw [hnum]
      rw [List.range'_succ]
      rw [healthLoop, h]
      simp only [List.filter, isLogPullEv]
      rw [ih (a + 1)]
      simp [h, isErrorOutcome]
    | error m =>
      have hnum : numProbes (healthLoop url probe lf a (r+1)).2 =
          numProbes (healthLoop url probe lf (a+1) r).2 + 1 := by
        by_cases h5 : a % 5 = 0 <;>
          simp [healthLoop, h, numProbes, isProbeEv, List.filter_append,
            isLogPullEv, h5]
      rw [hnum]
      rw [List.range'_succ]
      rw [healthLoop, h]
      by_cases h5 : a % 5 = 0
      · have hb : (a % 5 == 0) = true := by simpa using h5
        simp only [List.filter_append, List.filter, isLogPullEv, h5]
        rw [ih (a + 1)]
        simp [h, isErrorOutcome, hb]
      · have hb : (a % 5 == 0) = false := by simpa using h5
        simp only [List.filter_append, List.filter, isLogPullEv, h5]
        rw [ih (a + 1)]
        simp [h, isErrorOutcome, hb]

/-! ## Claim C2 -/

/-- C2: `waitForHealth` performs at most `maxAttempts` sequential probe
attempts (`maxAttempts = ⌊timeoutSeconds·1000/2000⌋`); it returns `true`
exactly when some attempt in range succeeds, stopping at the first
successful attempt with exactly that many probes issued, and otherwise
returns `false` after exactly `maxAttempts` failed attempts. -/
theorem C2_waitForHealth_bounded_retry (url : String)
    (probe : Nat → ProbeOutcome) (lf : Nat → Bool) (t : Nat) :
    numProbes (waitForHealth url probe lf t).2 ≤ t * 1000 / 2000 ∧
    ((waitForHealth url probe lf t).1 = true ↔
      ∃ i, 1 ≤ i ∧ i ≤ t * 1000 / 2000 ∧ probe i = .success) ∧
    ((waitForHealth url probe lf t).1 = false →
      numProbes (waitForHealth url probe lf t).2 = t * 1000 / 2000) ∧
    (∀ k, 1 ≤ k → k ≤ t * 1000 / 2000 → probe k = .success →
      (∀ j, 1 ≤ j → j < k → probe j ≠ .success) →
      numProbes (waitForHealth url probe lf t).2 = k) := by
  refine ⟨healthLoop_numProbes_le url probe lf _ 1, ?_,
    healthLoop_false_numProbes url probe lf _ 1, ?_⟩
  · rw [waitForHealth, healthLoop_true_iff]
    constructor
    · rintro ⟨i, h1, h2, h3⟩; exact ⟨i, h1, by omega, h3⟩
    · rintro ⟨i, h1, h2, h3⟩; exact ⟨i, h1, by omega, h3⟩
  · intro k h1 h2 hk hmin
    have := healthLoop_first_success url probe lf (t * 1000 / 2000) 1 k h1
      (by omega) hk hmin
    rw [waitForHealth, this]
    omega

/-- Probe schedule used to witness C2: attempts 1 fails with a
non-success status, attempt 2 succeeds. -/
theorem C2_witness :
    (waitForHealth "http://localhost:3100" probeW (fun _ => true) 10).1 = true ∧
    numProbes (waitForHealth "http://localhost:3100" probeW (fun _ => true) 10).2 = 2 := by
  have h := C2_waitForHealth_bounded_retry "http://localhost:3100" probeW
    (fun _ => true) 10
  refine ⟨h.2.1.mpr ⟨2, by decide, by decide, by decide⟩, ?_⟩
  refine h.2.2.2 2 (by decide) (by decide) (by decide) ?_
  intro j h1 h2
  have : j = 1 := by omega
  subst this
  decide

/-! ## Claim C5 -/

/-- C5 (amended): the diagnostic pulls of the health loop happen exactly
on executed attempts whose number is divisible by 5 and whose probe
threw (not on attempts that failed with a non-success status); each pull
addresses `logPullName url` — a name derived from the url, not the
agent's container name — and a failed fetch never aborts the loop: the
verdict and the number of attempts are independent of fetch outcomes. -/
theorem C5_diagnostic_pulls (url : String) (probe : Nat → ProbeOutcome)
    (lf : Nat → Bool) (n : Nat) :
    (healthLoop url probe lf 1 n).2.filter isLogPullEv =
      ((List.range' 1 (numProbes (healthLoop url probe lf 1 n).2)).filter
        (fun i => i % 5 == 0 && isErrorOutcome (probe i))).map
          (fun i => Event.logPull (logPullName url) (lf i)) ∧
    (∀ lf₂, (healthLoop url probe lf₂ 1 n).1 = (healthLoop url probe lf 1 n).1 ∧
      numProbes (healthLoop url probe lf₂ 1 n).2 =
        numProbes (healthLoop url probe lf 1 n).2) :=
  ⟨healthLoop_pulls url probe lf n 1,
   fun lf₂ => healthLoop_indep_logFetch url probe n 1 lf₂ lf⟩

/-- C5 counterexample: five attempts all fail with a non-success status;
the 5th failed attempt triggers no diagnostic pull, refuting "on every
5th failed probe attempt an additional diagnostic tail is pulled". -/
theorem C5_counterexample :
    (healthLoop "http://localhost:3100" (fun _ => .failStatus 500)
      (fun _ => true) 1 5).1 = false ∧
    numProbes (healthLoop "http://localhost:3100" (fun _ => .failStatus 500)
      (fun _ => true) 1 5).2 = 5 ∧
    (fun (_ : Nat) => ProbeOutcome.failStatus 500) 5 ≠ ProbeOutcome.success ∧
    (healthLoop "http://localhost:3100" (fun _ => .failStatus 500)
      (fun _ => true) 1 5).2.filter isLogPullEv = [] := by
  decide

/-! ## Claims C8, C10: `stopAgent` -/

/-- Shared helper: looking up an unregistered id short-circuits
`stopAgent` with no side effect. -/
theorem stopAgent_none (se : StopEnv) (reg : Registry) (id : String)
    (h : lookupReg reg id = none) :
    stopAgent se reg id =
      ({ success := false, agentId := none, url := none, status := none,
         error := some "Agent not found" }, reg, []) := by
  rw [stopAgent, h]

/-- C8: for every agentId absent from the registry, `stopAgent` returns
exactly `{success:false, error:'Agent not found'}`, issues no tear-down
command (empty trace), and leaves the registry unchanged. -/
theorem C8_stop_unknown_agent (se : StopEnv) (reg : Registry) (id : String)
    (h : lookupReg reg id = none) :
    stopAgent se reg id =
      ({ success := false, agentId := none, url := none, status := none,
         error := some "Agent not found" }, reg, []) :=
  stopAgent_none se reg id h

theorem C8_witness :
    lookupReg [] "a1" = none ∧
    stopAgent { fileAccess := true, down := .ok } [] "a1" =
      ({ success := false, agentId := none, url := none, status := none,
         error := some "Agent not found" }, [], []) :=
  ⟨by decide, C8_stop_unknown_agent { fileAccess := true, down := .ok } [] "a1"
    (by decide)⟩

/-- C10: when the registry entry exists and the tear-down command
throws, `stopAgent` returns `{success:false, agentId, error}` and the
registry is unchanged (the entry is not removed); moreover an entry
disappears only when `stopAgent` reported success. -/
theorem C10_stop_atomic_on_teardown_failure :
    (∀ (se : StopEnv) (reg : Registry) (id : String) (a : RegEntry) (m : String),
      lookupReg reg id = some a → se.fileAccess = true →
      a.composePath ≠ "" → se.down = .err m →
      stopAgent se reg id =
        ({ success := false, agentId := some id, url := none, status := none,
           error := some m }, reg, [.composeDown a.composePath])) ∧
    (∀ (se : StopEnv) (reg : Registry) (id : String),
      lookupReg ((stopAgent se reg id).2.1) id = none →
      lookupReg reg id = none ∨ (stopAgent se reg id).1.success = true) := by
  constructor
  · intro se reg id a m hreg hacc hpath hdown
    simp [stopAgent, hreg, hdown, hacc, hpath]
  · intro se reg id h
    by_cases hreg : lookupReg reg id = none
    · exact Or.inl hreg
    · right
      obtain ⟨a, ha⟩ := Option.ne_none_iff_exists'.mp hreg
      by_cases hc : a.composePath ≠ "" ∧ se.fileAccess = true
      · cases hdown : se.down with
        | ok => simp [stopAgent, ha, hc, hdown]
        | err m =>
          simp only [stopAgent, ha, hdown] at h
          rw [if_pos hc] at h
          simp only at h
          exact absurd h (by simp [ha])
      · simp [stopAgent, ha, hc]

theorem C10_witness :
    lookupReg regC10 "a1" = some entryC10 ∧
    stopAgent seC10 regC10 "a1" =
      ({ success := false, agentId := some "a1", url := none, status := none,
         error := some "compose down failed" }, regC10,
       [.composeDown "p"]) :=
  ⟨by decide,
   C10_stop_atomic_on_teardown_failure.1 seC10 regC10 "a1" entryC10
     "compose down failed" (by decide) rfl (by decide) rfl⟩

/-! ## Claim C7: follow-mode termination -/

/-- Once the follow subprocess has been killed, no later stream event
revives it. -/
theorem runFollow_dead (evs : List StreamEvent) :
    ∀ st : FollowState, st.procAlive = false →
      (runFollow st evs).procAlive = false := by
  induction evs with
  | nil => intro st h; exact h
  | cons e es ih =>
    intro st h
    cases e with
    | stdoutData s => exact ih _ h
    | stderrData s => exact ih _ h
    | procClose => exact ih _ h
    | reqClose => exact ih _ rfl

/-- C7: whenever the consumer disconnect event fires among the processed
stream events, the spawned log-following subprocess ends up terminated. -/
theorem C7_follow_killed_on_disconnect (evs : List StreamEvent)
    (h : StreamEvent.reqClose ∈ evs) :
    (runFollow followInit evs).procAlive = false := by
  suffices hgen : ∀ st : FollowState, (runFollow st evs).procAlive = false by
    exact hgen followInit
  induction evs with
  | nil => cases h
  | cons e es ih =>
    intro st
    rcases List.mem_cons.mp h with heq | hmem
    · subst heq
      exact runFollow_dead es _ rfl
    · show (runFollow (followStep st e) es).procAlive = false
      exact ih hmem (followStep st e)

theorem C7_witness :
    StreamEvent.reqClose ∈
      [StreamEvent.stdoutData "boot", StreamEvent.reqClose,
       StreamEvent.stderrData "late"] ∧
    (runFollow followInit
      [StreamEvent.stdoutData "boot", StreamEvent.reqClose,
       StreamEvent.stderrData "late"]).procAlive = false :=
  ⟨by decide,
   C7_follow_killed_on_disconnect
     [StreamEvent.stdoutData "boot", StreamEvent.reqClose,
      StreamEvent.stderrData "late"] (by decide)⟩

/-! ## Claim C3: port derivation -/

/-- C3 counterexample: an agentId whose trailing three characters parse
as a negative hex value (`parseInt("-ab", 16) = -171`, JavaScript `%`
keeps the dividend's sign) is mapped to port 2929, below the claimed
range `[3100, 3999]`. -/
theorem C3_counterexample :
    deployAgentPort "agent--ab" = some 2929 ∧
    generateComposePort "agent--ab" = some 2929 ∧
    ¬ ((3100 : Int) ≤ 2929 ∧ (2929 : Int) ≤ 3999) := by
  decide

/-- C3 (amended): the two port-derivation sites compute the same
deterministic function of the agentId, and whenever the id's trailing
three characters parse to a nonnegative value (as for every generated
hex id) the derived port lies within `[3100, 3999]`. -/
theorem C3_port_deterministic_range :
    (∀ id : String, generateComposePort id = deployAgentPort id) ∧
    (∀ (id : String) (v : Int),
      parseIntHex (sliceLast3 id) = some v → 0 ≤ v →
      generateComposePort id = some (3100 + Int.tmod v 900) ∧
      deployAgentPort id = some (3100 + Int.tmod v 900) ∧
      3100 ≤ 3100 + Int.tmod v 900 ∧ 3100 + Int.tmod v 900 ≤ 3999) := by
  constructor
  · intro id
    rfl
  · intro id v hparse hv
    have h0 : 0 ≤ Int.tmod v 900 := Int.tmod_nonneg 900 hv
    have h1 : Int.tmod v 900 < 900 := Int.tmod_lt_of_pos v (by norm_num)
    refine ⟨?_, ?_, by omega, by omega⟩
    · rw [generateComposePort, hparse]
    · rw [deployAgentPort, hparse]

theorem C3_witness :
    parseIntHex (sliceLast3 "abcdef") = some 3567 ∧ (0 : Int) ≤ 3567 ∧
    generateComposePort "abcdef" = some (3100 + Int.tmod 3567 900) ∧
    deployAgentPort "abcdef" = some (3100 + Int.tmod 3567 900) ∧
    3100 ≤ 3100 + Int.tmod (3567 : Int) 900 ∧
    3100 + Int.tmod (3567 : Int) 900 ≤ 3999 := by
  refine ⟨by decide, by decide, ?_⟩
  have h := C3_port_deterministic_range.2 "abcdef" 3567 (by decide) (by decide)
  exact ⟨h.1, h.2.1, h.2.2.1, h.2.2.2⟩

/-! ## Claim C1: deploy failure contract -/

/-- C1 (amended): when the agent is not already registered and any stage
fails, `deployAgent` returns `{success:false, error}` with the original
failure's message, leaves the registry unchanged — in particular with no
entry for the agentId — and the returned result (error message included)
is entirely independent of the cleanup environment, so tear-down errors
never replace the original failure. -/
theorem C1_deploy_failure_contract :
    (∀ (env : DeployEnv) (reg : Registry) (id m : String),
      lookupReg reg id = none → deployFirstError env id = some m →
      (deployAgent env reg id).1.success = false ∧
      (deployAgent env reg id).1.error = some m ∧
      (deployAgent env reg id).2.1 = reg ∧
      lookupReg ((deployAgent env reg id).2.1) id = none) ∧
    (∀ (env : DeployEnv) (reg : Registry) (id : String) (se : StopEnv),
      (deployAgent { env with stopEnv := se } reg id).1 =
        (deployAgent env reg id).1) := by
  constructor
  · intro env reg id m hreg hfe
    have hstop := stopAgent_none env.stopEnv reg id hreg
    cases h1 : env.saveConfig with
    | err m1 =>
      simp only [deployFirstError, h1, Option.some.injEq] at hfe
      subst hfe
      simp [deployAgent, deployCatch, h1, hstop, hreg]
    | ok =>
      cases h2 : env.saveCompose with
      | err m2 =>
        simp only [deployFirstError, h1, h2, Option.some.injEq] at hfe
        subst hfe
        simp [deployAgent, deployCatch, h1, h2, hstop, hreg]
      | ok =>
        cases h3 : env.build with
        | err m3 =>
          simp only [deployFirstError, h1, h2, h3, Option.some.injEq] at hfe
          subst hfe
          simp [deployAgent, deployCatch, h1, h2, h3, hstop, hreg]
        | ok =>
          cases h4 : env.up with
          | err m4 =>
            simp only [deployFirstError, h1, h2, h3, h4,
              Option.some.injEq] at hfe
            subst hfe
            simp [deployAgent, deployCatch, h1, h2, h3, h4, hstop, hreg]
          | ok =>
            by_cases hh : (waitForHealth (urlOfPort (deployAgentPort id))
                env.probe env.logFetch 60).1
            · simp [deployFirstError, h1, h2, h3, h4, hh] at hfe
            · simp [deployFirstError, h1, h2, h3, h4, hh] at hfe
              subst hfe
              simp [deployAgent, deployCatch, h1, h2, h3, h4, hh, hstop, hreg]
  · intro env reg id se
    cases h1 : env.saveConfig <;> cases h2 : env.saveCompose <;>
      cases h3 : env.build <;> cases h4 : env.up <;>
        by_cases hh : (waitForHealth (urlOfPort (deployAgentPort id))
            env.probe env.logFetch 60).1 <;>
          simp [deployAgent, deployCatch, h1, h2, h3, h4, hh]

/-- C1 counterexample: with a pre-existing registry entry for the id and
a cleanup whose tear-down rejects, a failing build still leaves a
registry entry for the agentId, refuting "leaves no registry entry for
that agentId" as stated; the original error is still reported. -/
theorem C1_counterexample :
    (deployAgent envC1 regC1 "a1").1.success = false ∧
    (deployAgent envC1 regC1 "a1").1.error = some "boom" ∧
    ¬ lookupReg ((deployAgent envC1 regC1 "a1")).2.1 "a1" = none := by
  decide

theorem C1_witness :
    lookupReg ([] : Registry) "a1" = none ∧
    deployFirstError envC1 "a1" = some "boom" ∧
    ((deployAgent envC1 [] "a1").1.success = false ∧
     (deployAgent envC1 [] "a1").1.error = some "boom" ∧
     (deployAgent envC1 [] "a1").2.1 = [] ∧
     lookupReg ((deployAgent envC1 [] "a1").2.1) "a1" = none) :=
  ⟨by decide, by decide,
   C1_deploy_failure_contract.1 envC1 [] "a1" "boom" (by decide) (by decide)⟩

/-! ## Claim C4: pipeline stage order -/

theorem stageEvents_healthLoop (url : String) (probe : Nat → ProbeOutcome)
    (lf : Nat → Bool) :
    ∀ r a, stageEvents (healthLoop url probe lf a r).2 = [] := by
  intro r
  induction r with
  | zero => intro a; simp [healthLoop, stageEvents]
  | succ r ih =>
    intro a
    cases h : probe a with
    | success => simp [healthLoop, h, stageEvents, isStageEv]
    | failStatus c =>
      have := ih (a + 1)
      simp only [stageEvents] at this
      simp [healthLoop, h, stageEvents, isStageEv, this]
    | error m =>
      have := ih (a + 1)
      simp only [stageEvents] at this
      by_cases h5 : a % 5 = 0 <;>
        simp [healthLoop, h, stageEvents, isStageEv, h5,
          List.filter_append, this]

theorem stageEvents_waitForHealth (url : String) (probe : Nat → ProbeOutcome)
    (lf : Nat → Bool) (t : Nat) :
    stageEvents (waitForHealth url probe lf t).2 = [] :=
  stageEvents_healthLoop url probe lf _ 1

theorem stageEvents_stopAgent (se : StopEnv) (reg : Registry) (id : String) :
    stageEvents (stopAgent se reg id).2.2 = [] := by
  cases hreg : lookupReg reg id with
  | none => simp [stopAgent, hreg, stageEvents]
  | some a =>
    by_cases hc : a.composePath ≠ "" ∧ se.fileAccess = true
    · cases hdown : se.down <;>
        simp [stopAgent, hreg, hc, hdown, stageEvents, isStageEv]
    · simp [stopAgent, hreg, hc, stageEvents]

/-- C4 (amended): the deploy pipeline runs its stages strictly
sequentially, each stage gating the next, in the order: write the agent
config, write the serialized descriptor, build the shared runtime image,
then issue the bring-up command (the descriptor is written before the
image build, not after it). -/
theorem C4_pipeline_stage_order (env : DeployEnv) (reg : Registry)
    (id : String) :
    stageEvents (deployAgent env reg id).2.2 =
      .saveConfig id ::
        (match env.saveConfig with
         | .err _ => []
         | .ok =>
           .saveCompose (composePathOf id) ::
             (match env.saveCompose with
              | .err _ => []
              | .ok =>
                .buildImage ::
                  (match env.build with
                   | .err _ => []
                   | .ok => [.composeUp (composePathOf id)]))) := by
  have hstop : ∀ se reg' id', stageEvents (stopAgent se reg' id').2.2 = [] :=
    stageEvents_stopAgent
  have hhealth := stageEvents_waitForHealth
    (urlOfPort (deployAgentPort id)) env.probe env.logFetch 60
  simp only [stageEvents] at hstop hhealth
  cases h1 : env.saveConfig <;> cases h2 : env.saveCompose <;>
    cases h3 : env.build <;> cases h4 : env.up <;>
      by_cases hh : (waitForHealth (urlOfPort (deployAgentPort id))
          env.probe env.logFetch 60).1 <;>
        simp [deployAgent, deployCatch, h1, h2, h3, h4, hh, stageEvents,
          List.filter_append, isStageEv, hstop, hhealth]

/-- C4 counterexample: on a fully successful run, the recorded trace
writes the descriptor before building the image, so the claimed order
"build, then write the descriptor, then bring up" is false. -/
theorem C4_counterexample :
    (deployAgent envC4 [] "a1").2.2 =
      [.saveConfig "a1", .saveCompose (composePathOf "a1"), .buildImage,
       .composeUp (composePathOf "a1"), .probe 1] ∧
    beforeIn isBuildEv isSaveComposeEv (deployAgent envC4 [] "a1").2.2 =
      false ∧
    beforeIn isSaveComposeEv isBuildEv (deployAgent envC4 [] "a1").2.2 =
      true := by
  decide

/-! ## Claim C6: stop vs pause endpoints -/

theorem lookupA_setA (m : AgentsMap) (id : String) (a : AgentRec) :
    lookupA (setA m id a) id = some a := by
  simp [lookupA, setA, List.find?]

/-- C6 (amended): stop and pause both delegate to the same `stopAgent`
tear-down (identical registry effect and identical issued commands) and
their effects on the agent record are identical except for the status
label (`'stopped'` vs `'paused'`) and which timestamp field is stamped
(`stoppedAt` vs `pausedAt`); in particular both endpoints clear the
agent's `containerUrl` — pause does not preserve it. -/
theorem C6_stop_pause_equivalence (se : StopEnv) (reg : Registry)
    (agents : AgentsMap) (id now : String) :
    (stopEndpoint se reg agents id now).2.1 =
      (pauseEndpoint se reg agents id now).2.1 ∧
    (stopEndpoint se reg agents id now).2.2.2 =
      (pauseEndpoint se reg agents id now).2.2.2 ∧
    (stopEndpoint se reg agents id now).1.code =
      (pauseEndpoint se reg agents id now).1.code ∧
    (stopEndpoint se reg agents id now).1.detail =
      (pauseEndpoint se reg agents id now).1.detail ∧
    (∀ a, lookupA agents id = some a →
      (stopEndpoint se reg agents id now).1.code = 200 →
      (lookupA (stopEndpoint se reg agents id now).2.2.1 id).map
          (fun x => x.status) = some "stopped" ∧
      (lookupA (pauseEndpoint se reg agents id now).2.2.1 id).map
          (fun x => x.status) = some "paused" ∧
      (lookupA (stopEndpoint se reg agents id now).2.2.1 id).map
          (fun x => x.containerUrl) = some none ∧
      (lookupA (pauseEndpoint se reg agents id now).2.2.1 id).map
          (fun x => x.containerUrl) = some none ∧
      (lookupA (stopEndpoint se reg agents id now).2.2.1 id).map
          (fun x => x.updatedAt) = some (some now) ∧
      (lookupA (pauseEndpoint se reg agents id now).2.2.1 id).map
          (fun x => x.updatedAt) = some (some now) ∧
      (lookupA (stopEndpoint se reg agents id now).2.2.1 id).map
          (fun x => x.stoppedAt) = some (some now) ∧
      (lookupA (pauseEndpoint se reg agents id now).2.2.1 id).map
          (fun x => x.pausedAt) = some (some now) ∧
      (lookupA (stopEndpoint se reg agents id now).2.2.1 id).map
          (fun x => x.pausedAt) = some a.pausedAt ∧
      (lookupA (pauseEndpoint se reg agents id now).2.2.1 id).map
          (fun x => x.stoppedAt) = some a.stoppedAt) := by
  cases hA : lookupA agents id with
  | none => simp [stopEndpoint, pauseEndpoint, hA]
  | some a0 =>
    by_cases hs : (stopAgent se reg id).1.success = true
    · simp [stopEndpoint, pauseEndpoint, hA, hs, lookupA_setA]
    · simp [stopEndpoint, pauseEndpoint, hA, hs]

/-- C6 counterexample: a successful pause clears the agent's
`containerUrl` (the code runs `delete agent.containerUrl` in the pause
branch too), refuting "pause preserves the agent's reachability
metadata". -/
theorem C6_counterexample :
    recC6.containerUrl = some "http://localhost:3100" ∧
    (pauseEndpoint seC6 regC6 agentsC6 "a1" "now").1.code = 200 ∧
    (lookupA (pauseEndpoint seC6 regC6 agentsC6 "a1" "now").2.2.1 "a1").map
      (fun x => x.containerUrl) = some none := by
  decide

theorem C6_witness :
    lookupA agentsC6 "a1" = some recC6 ∧
    (stopEndpoint seC6 regC6 agentsC6 "a1" "now").1.code = 200 ∧
    ((lookupA (stopEndpoint seC6 regC6 agentsC6 "a1" "now").2.2.1 "a1").map
        (fun x => x.status) = some "stopped" ∧
      (lookupA (pauseEndpoint seC6 regC6 agentsC6 "a1" "now").2.2.1 "a1").map
        (fun x => x.status) = some "paused" ∧
      (lookupA (stopEndpoint seC6 regC6 agentsC6 "a1" "now").2.2.1 "a1").map
        (fun x => x.containerUrl) = some none ∧
      (lookupA (pauseEndpoint seC6 regC6 agentsC6 "a1" "now").2.2.1 "a1").map
        (fun x => x.containerUrl) = some none ∧
      (lookupA (stopEndpoint seC6 regC6 agentsC6 "a1" "now").2.2.1 "a1").map
        (fun x => x.updatedAt) = some (some "now") ∧
      (lookupA (pauseEndpoint seC6 regC6 agentsC6 "a1" "now").2.2.1 "a1").map
        (fun x => x.updatedAt) = some (some "now") ∧
      (lookupA (stopEndpoint seC6 regC6 agentsC6 "a1" "now").2.2.1 "a1").map
        (fun x => x.stoppedAt) = some (some "now") ∧
      (lookupA (pauseEndpoint seC6 regC6 agentsC6 "a1" "now").2.2.1 "a1").map
        (fun x => x.pausedAt) = some (some "now") ∧
      (lookupA (stopEndpoint seC6 regC6 agentsC6 "a1" "now").2.2.1 "a1").map
        (fun x => x.pausedAt) = some recC6.pausedAt ∧
      (lookupA (pauseEndpoint seC6 regC6 agentsC6 "a1" "now").2.2.1 "a1").map
        (fun x => x.stoppedAt) = some recC6.stoppedAt) :=
  ⟨by decide, by decide,
   (C6_stop_pause_equivalence seC6 regC6 agentsC6 "a1" "now").2.2.2.2 recC6
     (by decide) (by decide)⟩

/-! ## Claim C9: registry invariant -/

/-- Registry reached by running a sequence of lifecycle operations from
the initial empty registry. -/
theorem goodReg_erase (reg : Registry) (id : String) (h : GoodReg reg) :
    GoodReg (eraseReg reg id) :=
  fun p hp => h p (List.mem_of_mem_filter hp)

theorem urlOfPort_ne_empty (o : Option Int) : urlOfPort o ≠ "" := by
  cases o with
  | none => decide
  | some p =>
    intro hcon
    have h := congrArg String.length hcon
    rw [urlOfPort, String.length_append] at h
    have h17 : "http://localhost:".length = 17 := by decide
    have h0 : ("" : String).length = 0 := by decide
    rw [h17, h0] at h
    omega

theorem composePathOf_ne_empty (id : String) : composePathOf id ≠ "" := by
  intro hcon
  have h := congrArg String.length hcon
  rw [composePathOf, String.length_append, String.length_append] at h
  have h15 : "../deployments/".length = 15 := by decide
  have h12 : "-compose.yml".length = 12 := by decide
  have h0 : ("" : String).length = 0 := by decide
  rw [h15, h12, h0] at h
  omega

theorem goodReg_insert (reg : Registry) (id : String) (e : RegEntry)
    (h : GoodReg reg) (h1 : e.status = "running") (h2 : e.url ≠ "")
    (h3 : e.composePath ≠ "") : GoodReg (insertReg reg id e) := by
  intro p hp
  rcases List.mem_cons.mp hp with rfl | hp'
  · exact ⟨h1, h2, h3⟩
  · exact h p (List.mem_of_mem_filter hp')

theorem stopAgent_reg_cases (se : StopEnv) (reg : Registry) (id : String) :
    (stopAgent se reg id).2.1 = reg ∨
    (stopAgent se reg id).2.1 = eraseReg reg id := by
  cases hreg : lookupReg reg id with
  | none => left; simp [stopAgent, hreg]
  | some a =>
    by_cases hc : a.composePath ≠ "" ∧ se.fileAccess = true
    · cases hdown : se.down with
      | ok => right; simp [stopAgent, hreg, hc, hdown]
      | err m => left; simp [stopAgent, hreg, hc, hdown]
    · right; simp [stopAgent, hreg, hc]

theorem deployAgent_reg_cases (env : DeployEnv) (reg : Registry)
    (id : String) :
    (deployAgent env reg id).2.1 =
      insertReg reg id
        { url := urlOfPort (deployAgentPort id),
          composePath := composePathOf id, status := "running",
          deployedAt := env.nowIso } ∨
    (deployAgent env reg id).2.1 = reg ∨
    (deployAgent env reg id).2.1 = eraseReg reg id := by
  have hs := stopAgent_reg_cases env.stopEnv reg id
  by_cases hh : (waitForHealth (urlOfPort (deployAgentPort id)) env.probe
      env.logFetch 60).1
  · cases h1 : env.saveConfig <;> cases h2 : env.saveCompose <;>
      cases h3 : env.build <;> cases h4 : env.up <;>
      first
        | (left; simp [deployAgent, deployCatch, h1, h2, h3, h4, hh]; done)
        | (right
           simpa [deployAgent, deployCatch, h1, h2, h3, h4, hh] using hs)
  · cases h1 : env.saveConfig <;> cases h2 : env.saveCompose <;>
      cases h3 : env.build <;> cases h4 : env.up <;>
        (right
         simpa [deployAgent, deployCatch, h1, h2, h3, h4, hh] using hs)

theorem goodReg_applyOp (reg : Registry) (op : LifeOp) (h : GoodReg reg) :
    GoodReg (applyOp reg op) := by
  cases op with
  | deploy env id =>
    rcases deployAgent_reg_cases env reg id with h1 | h1 | h1 <;>
      rw [applyOp, h1]
    · exact goodReg_insert reg id _ h rfl (urlOfPort_ne_empty _)
        (composePathOf_ne_empty _)
    · exact h
    · exact goodReg_erase reg id h
  | stop se id =>
    rcases stopAgent_reg_cases se reg id with h1 | h1 <;> rw [applyOp, h1]
    · exact h
    · exact goodReg_erase reg id h

theorem goodReg_foldl (ops : List LifeOp) :
    ∀ reg, GoodReg reg → GoodReg (ops.foldl applyOp reg) := by
  induction ops with
  | nil => intro reg h; exact h
  | cons op ops ih =>
    intro reg h
    exact ih (applyOp reg op) (goodReg_applyOp reg op h)

/-- C9: in every state reachable by lifecycle operations from the empty
registry, every registry entry has status exactly `'running'` and a
nonempty url and compose path; an entry appears for a previously
unregistered id only when the health check succeeded, and an existing
entry disappears only through a `stopAgent` call that reported success. -/
theorem C9_registry_running_invariant :
    (∀ ops : List LifeOp, GoodReg (reachReg ops)) ∧
    (∀ (env : DeployEnv) (reg : Registry) (id : String),
      lookupReg reg id = none →
      lookupReg ((deployAgent env reg id).2.1) id ≠ none →
      (waitForHealth (urlOfPort (deployAgentPort id)) env.probe
        env.logFetch 60).1 = true) ∧
    (∀ (se : StopEnv) (reg : Registry) (id : String),
      lookupReg reg id ≠ none →
      lookupReg ((stopAgent se reg id).2.1) id = none →
      (stopAgent se reg id).1.success = true) := by
  refine ⟨?_, ?_, ?_⟩
  · intro ops
    exact goodReg_foldl ops [] (fun p hp => absurd hp (List.not_mem_nil p))
  · intro env reg id hnone hne
    by_cases hh : (waitForHealth (urlOfPort (deployAgentPort id)) env.probe
        env.logFetch 60).1
    · exact hh
    · exfalso
      apply hne
      have hstop := stopAgent_none env.stopEnv reg id hnone
      cases h1 : env.saveConfig <;> cases h2 : env.saveCompose <;>
        cases h3 : env.build <;> cases h4 : env.up <;>
          simp [deployAgent, deployCatch, h1, h2, h3, h4, hh, hstop, hnone]
  · intro se reg id h1 h2
    obtain ⟨a, ha⟩ := Option.ne_none_iff_exists'.mp h1
    by_cases hc : a.composePath ≠ "" ∧ se.fileAccess = true
    · cases hdown : se.down with
      | ok => simp [stopAgent, ha, hc, hdown]
      | err m =>
        simp [stopAgent, ha, hc, hdown] at h2
    · simp [stopAgent, ha, hc]

theorem C9_witness :
    lookupReg regC9 "b2" ≠ none ∧
    lookupReg ((stopAgent seC9 regC9 "b2").2.1) "b2" = none ∧
    (stopAgent seC9 regC9 "b2").1.success = true :=
  ⟨by decide, by decide,
   C9_registry_running_invariant.2.2 seC9 regC9 "b2" (by decide) (by decide)⟩

end SuperiorAgents
